import Mathlib

/-!
Shallow embedding of the appointment-scheduling agent
(src/src/tools/calendar_integration.py, availability.py, appointments.py,
src/src/agent.py, src/src/memory/total.py, src/src/db/database.py).

Times of day are embedded as `TimeOfDay` records mirroring Python
`datetime.time` (hour/minute); minute arithmetic follows the source's
`hour * 60 + minute` conversions.
-/

/-- Mirror of Python `datetime.time` restricted to the fields the code uses
(`hour`, `minute`); seconds never occur in the slot computation. -/
structure TimeOfDay where
  hour : Nat
  minute : Nat
deriving DecidableEq, Repr

/-- `t.hour * 60 + t.minute`, as computed inline throughout
`calculate_available_slots`. -/
def TimeOfDay.toMins (t : TimeOfDay) : Nat := t.hour * 60 + t.minute

/-- Mirror of `time(mins // 60, mins % 60)` in `calculate_available_slots`. -/
def timeOfMins (m : Nat) : TimeOfDay := ⟨m / 60, m % 60⟩

/-- A `(start_time, end_time)` pair as passed around for both availability
blocks and booked slots. -/
abbrev TimeBlock := TimeOfDay × TimeOfDay

/-- The inner `for booked_start, booked_end in booked_slots` loop of
`calculate_available_slots`: the candidate `[curMins, slotEndMins)` is
unavailable iff some booked block fails
`slot_end_mins <= booked_start_mins or current_mins >= booked_end_mins`. -/
def overlapsBooked (curMins slotEndMins : Nat) (booked : List TimeBlock) : Bool :=
  booked.any fun b =>
    ¬(slotEndMins ≤ b.1.toMins ∨ b.2.toMins ≤ curMins)

/-- Fuel-indexed encoding of the
`while current_mins + duration_minutes <= avail_end_mins` loop of
`calculate_available_slots`: one recursive step per loop iteration, the
cursor advancing by `duration`. The guard carries `0 < duration` because the
source's loop does not terminate for `duration = 0` (the callers always pass
a positive service duration). -/
def slotsInBlockAux (booked : List TimeBlock) (duration endMins : Nat) :
    Nat → Nat → List TimeOfDay
  | 0, _ => []
  | fuel + 1, curMins =>
    if 0 < duration ∧ curMins + duration ≤ endMins then
      (if overlapsBooked curMins (curMins + duration) booked then []
       else [timeOfMins curMins])
        ++ slotsInBlockAux booked duration endMins fuel (curMins + duration)
    else []

/-- The walk over one availability block, started with enough fuel for every
iteration the loop guard admits. -/
def slotsInBlock (booked : List TimeBlock) (duration endMins curMins : Nat) :
    List TimeOfDay :=
  slotsInBlockAux booked duration endMins (endMins + 1 - curMins) curMins

/-- Embedding of `calculate_available_slots` in
src/src/tools/calendar_integration.py: per availability block, walk a cursor
in increments of `duration` and keep the candidates that overlap no booked
slot, concatenating the blocks' slots in order. -/
def calculate_available_slots (availability_blocks : List TimeBlock)
    (booked_slots : List TimeBlock) (duration_minutes : Nat) : List TimeOfDay :=
  (availability_blocks.map fun b =>
    slotsInBlock booked_slots duration_minutes b.2.toMins b.1.toMins).flatten

/-! ## Database rows (src/src/db/database.py)

Calendar dates and wall-clock timestamps are opaque to every verified
operation (they are only stored, compared for equality, or snapshotted), so
they are embedded as plain records/`Nat` ticks. -/

/-- A calendar date, as produced by `date.fromisoformat`. -/
structure PyDate where
  year : Nat
  month : Nat
  day : Nat
deriving DecidableEq, Repr

/-- An instant (`datetime.now()`); only stored, never computed with. -/
abbrev Instant := Nat

/-- Case-insensitive substring test over character lists, the embedding of
SQL `LOWER(name) LIKE LOWER('%query%')`. -/
def charsContain (hay needle : List Char) : Bool :=
  if needle.isPrefixOf hay then true
  else
    match hay with
    | [] => false
    | _ :: t => charsContain t needle

/-- `LOWER(hay) LIKE LOWER('%needle%')`. -/
def likeCI (hay needle : String) : Bool :=
  charsContain (hay.toList.map Char.toLower) (needle.toList.map Char.toLower)

/-- Row of the `calendars` table (fields the verified code touches). -/
structure CalendarRow where
  id : String
  branch_id : String
  name : String
  google_calendar_id : String
  default_start_time : TimeOfDay
  default_end_time : TimeOfDay
  is_active : Bool
deriving DecidableEq, Repr

/-- Row of the `services` table (fields the verified code touches). -/
structure ServiceRow where
  id : String
  branch_id : String
  name : String
  price : Int
  duration_minutes : Nat
  is_active : Bool
deriving DecidableEq, Repr

/-- Row of the `users` table (fields the verified code touches). -/
structure UserRow where
  id : String
  full_name : String
  identification_number : String
  phone_number : String
deriving DecidableEq, Repr

/-- Row of the `clients` table (only looked up by id in the booking path). -/
structure ClientRow where
  id : String
deriving DecidableEq, Repr

/-- Row of the `branches` table (fields the verified code touches). -/
structure BranchRow where
  id : String
  name : String
  address : String
deriving DecidableEq, Repr

/-- Row of the `appointments` table (fields the verified code touches). -/
structure AppointmentRow where
  id : String
  user_id : String
  calendar_id : String
  service_id : String
  branch_id : String
  service_name_snapshot : String
  service_price_snapshot : Int
  service_duration_snapshot : Nat
  calendar_name_snapshot : String
  appointment_date : PyDate
  start_time : TimeOfDay
  end_time : TimeOfDay
  google_event_id : Option String
  status : String
  cancellation_reason : Option String
  cancelled_at : Option Instant
  cancelled_by : Option String
  created_at : Instant
  updated_at : Instant
deriving DecidableEq, Repr

/-- The SQLite store, one list per table, rows in insertion order. -/
structure Db where
  clients : List ClientRow
  branches : List BranchRow
  services : List ServiceRow
  calendars : List CalendarRow
  users : List UserRow
  appointments : List AppointmentRow
deriving DecidableEq, Repr

/-- `Database.get_user`. -/
def Db.get_user (db : Db) (user_id : String) : Option UserRow :=
  db.users.find? fun u => u.id = user_id

/-- `Database.get_client`. -/
def Db.get_client (db : Db) (client_id : String) : Option ClientRow :=
  db.clients.find? fun c => c.id = client_id

/-- `Database.get_branch`. -/
def Db.get_branch (db : Db) (branch_id : String) : Option BranchRow :=
  db.branches.find? fun b => b.id = branch_id

/-- `Database.get_calendar`. -/
def Db.get_calendar (db : Db) (calendar_id : String) : Option CalendarRow :=
  db.calendars.find? fun c => c.id = calendar_id

/-- `Database.find_service_by_name`: first active service of the branch whose
name matches `LIKE '%name%'` case-insensitively. -/
def Db.find_service_by_name (db : Db) (branch_id name : String) :
    Option ServiceRow :=
  db.services.find? fun s =>
    s.branch_id = branch_id ∧ s.is_active ∧ likeCI s.name name

/-- `Database.find_calendar_by_name`. -/
def Db.find_calendar_by_name (db : Db) (branch_id name : String) :
    Option CalendarRow :=
  db.calendars.find? fun c =>
    c.branch_id = branch_id ∧ c.is_active ∧ likeCI c.name name

/-- `Database.get_appointments_by_calendar_and_date`: the scheduled
appointments of a calendar on a date (the slot computation only consumes
their time ranges, so insertion order stands in for `ORDER BY start_time`). -/
def Db.get_appointments_by_calendar_and_date (db : Db) (calendar_id : String)
    (d : PyDate) : List AppointmentRow :=
  db.appointments.filter fun a =>
    a.calendar_id = calendar_id ∧ a.appointment_date = d ∧ a.status = "scheduled"

/-! ## Google Calendar client (src/src/tools/calendar_integration.py) -/

/-- The methods the `GoogleCalendarClient` class body defines. -/
def googleCalendarClientMethods : List String :=
  ["__init__", "_authenticate", "get_availability_blocks", "get_booked_slots",
   "create_appointment_event", "delete_event"]

/-- Python attribute lookup on a `GoogleCalendarClient` instance: calling a
method returns its result when the class defines it, and raises
`AttributeError` otherwise. `impl` is the value the named method would
produce on the given arguments were it defined. -/
def callCalendarMethod (method : String) (impl : List TimeBlock) :
    Except String (List TimeBlock) :=
  if googleCalendarClientMethods.contains method then Except.ok impl
  else Except.error ("AttributeError: no attribute " ++ method)

/-- External state the Google branch of the availability computation
observes: whether `get_calendar_client()` succeeds, and what the marker /
booked-slot fetches would return. -/
structure CalendarEnv where
  clientOk : Bool
  mockAiBlocks : List TimeBlock
  bookedBlocks : List TimeBlock

/-- The `try` block of `_get_available_slots_for_calendar`'s Google branch:
obtain the client, call `client.get_mock_ai_availability`, return `[]` when
no marker blocks exist, otherwise fetch booked slots and compute slots. -/
def googleBranchSlots (env : CalendarEnv) (duration_minutes : Nat) :
    Except String (List TimeOfDay) := do
  if ¬ env.clientOk then
    throw "get_calendar_client failed"
  let availability_blocks ←
    callCalendarMethod "get_mock_ai_availability" env.mockAiBlocks
  if availability_blocks.isEmpty then
    return []
  let booked_slots ← callCalendarMethod "get_booked_slots" env.bookedBlocks
  return calculate_available_slots availability_blocks booked_slots
    duration_minutes

/-- Embedding of `_get_available_slots_for_calendar`
(src/src/tools/availability.py). With `use_google` and a non-empty
`google_calendar_id` it runs the Google branch and maps any raised exception
to `[]`; otherwise it falls back to the stored calendar's default schedule
with the locally recorded appointments as booked slots. -/
def _get_available_slots_for_calendar (db : Db) (env : CalendarEnv)
    (calendar_id google_calendar_id : String) (target_date : PyDate)
    (duration_minutes : Nat) (use_google : Bool) : List TimeOfDay :=
  if use_google ∧ google_calendar_id ≠ "" then
    match googleBranchSlots env duration_minutes with
    | Except.ok slots => slots
    | Except.error _ => []
  else
    match db.get_calendar calendar_id with
    | none => []
    | some calendar =>
      let availability_blocks :=
        [(calendar.default_start_time, calendar.default_end_time)]
      let appointments :=
        db.get_appointments_by_calendar_and_date calendar_id target_date
      let booked_slots := appointments.map fun a => (a.start_time, a.end_time)
      calculate_available_slots availability_blocks booked_slots
        duration_minutes

/-! ## Booking engine (src/src/tools/appointments.py)

Each tool is embedded as a state transformer on `Db`. The Google-event
values written to `google_event_id` are opaque to every verified property,
so they are threaded as `Option String`; `none` stands for the initial
`google_event_id = None` surviving an exception in the best-effort external
block. External calendar calls are recorded in an effect trace. -/

/-- `Database.get_appointment`. -/
def Db.get_appointment (db : Db) (appointment_id : String) :
    Option AppointmentRow :=
  db.appointments.find? fun a => a.id = appointment_id

/-- `Database.cancel_appointment`: the `UPDATE appointments SET status =
'cancelled', cancellation_reason = ?, cancelled_at = ?, cancelled_by = ?,
updated_at = ? WHERE id = ?` statement. -/
def Db.cancel_appointment (db : Db) (appointment_id reason cancelled_by :
    String) (now : Instant) : Db :=
  { db with
    appointments := db.appointments.map fun a =>
      if a.id = appointment_id then
        { a with
          status := "cancelled"
          cancellation_reason := some reason
          cancelled_at := some now
          cancelled_by := some cancelled_by
          updated_at := now }
      else a }

/-- Python truthiness of an optional string column (`None` and `""` are
falsy). -/
def optStrTruthy : Option String → Bool
  | none => false
  | some s => s ≠ ""

/-- A best-effort call made against the external calendar. -/
inductive ExtCall
  | deleteEvent (google_calendar_id event_id : String)
  | createEvent (google_calendar_id : String)
deriving DecidableEq, Repr

/-- The `appointment_data` dict assembled by `create_appointment` before
`db.create_appointment` inserts it (status `"scheduled"`, full catalog
snapshots, `created_at`/`updated_at` stamped now). -/
def mkAppointmentRow (new_id user_id : String) (service : ServiceRow)
    (calendar : CalendarRow) (branch_id : String) (apt_date : PyDate)
    (apt_time apt_end_time : TimeOfDay) (google_event_id : Option String)
    (now : Instant) : AppointmentRow :=
  { id := new_id
    user_id := user_id
    calendar_id := calendar.id
    service_id := service.id
    branch_id := branch_id
    service_name_snapshot := service.name
    service_price_snapshot := service.price
    service_duration_snapshot := service.duration_minutes
    calendar_name_snapshot := calendar.name
    appointment_date := apt_date
    start_time := apt_time
    end_time := apt_end_time
    google_event_id := google_event_id
    status := "scheduled"
    cancellation_reason := none
    cancelled_at := none
    cancelled_by := none
    created_at := now
    updated_at := now }

/-- The Python value the best-effort Google-event block leaves in the
callers' `google_event_id` variables: `None` when the block raised before
the assignment (client unobtainable, or the call itself raised), or the
`(event_id, meet_link)` tuple `create_appointment_event` returns — the
method always returns a tuple, `(None, None)` on `HttpError`. sqlite binds
`None` as NULL but has no adapter for a tuple, so binding a tuple value
raises and rolls the transaction back. -/
inductive GEventVal
  | vNone
  | tuple (event_id meet_link : Option String)
deriving DecidableEq, Repr

/-- Return value of the `create_appointment` tool, one constructor per
exit of the source (including the raised sqlite bind error). -/
inductive CreateResult
  /-- `user_id` matched a business client: the client/user-id confusion
  error string. -/
  | clientIdConfusion
  /-- no user with this id. -/
  | userNotFound
  /-- `find_service_by_name` missed. -/
  | serviceNotFound
  /-- `find_calendar_by_name` missed. -/
  | calendarNotFound
  /-- `date.fromisoformat` / `time.fromisoformat` raised `ValueError`. -/
  | invalidDateTime
  /-- requested time absent, alternatives offered (`available_slots[:5]`). -/
  | notAvailable (alternatives : List TimeOfDay)
  /-- requested time absent and the availability list was empty. -/
  | noSlots
  /-- `db.create_appointment`'s INSERT raised: sqlite has no adapter for
  the `(event_id, meet_link)` tuple stored in `google_event_id`, so the
  parameter bind fails, the transaction rolls back, and the exception
  propagates out of the tool — no row is persisted. -/
  | raisedEventIdBind
  /-- the success payload (appointment id plus the looked-up branch; the
  source would raise on a missing branch only after the row is inserted). -/
  | ok (appointment_id : String) (branch : Option BranchRow)
deriving DecidableEq, Repr

/-- Embedding of the `create_appointment` tool. `apt_date?`/`apt_time?` are
the outcomes of the iso-format parses; `createReturns` is the outcome of
the `create_appointment_event` call when the client was obtained — `none`
when that call raised (swallowed by the surrounding `except`), `some t`
when it returned the tuple `t`. A tuple in `google_event_id` makes the
sqlite INSERT raise, so the row is persisted only when the variable is
still `None`. Returns the result, the updated store, and the external-call
trace. -/
def create_appointment (db : Db) (env : CalendarEnv)
    (createReturns : Option (Option String × Option String))
    (new_id : String) (now : Instant)
    (user_id branch_id service_name calendar_name : String)
    (apt_date? : Option PyDate) (apt_time? : Option TimeOfDay) :
    CreateResult × Db × List ExtCall :=
  match db.get_user user_id with
  | none =>
    match db.get_client user_id with
    | some _ => (CreateResult.clientIdConfusion, db, [])
    | none => (CreateResult.userNotFound, db, [])
  | some _user =>
  match db.find_service_by_name branch_id service_name with
  | none => (CreateResult.serviceNotFound, db, [])
  | some service =>
  match db.find_calendar_by_name branch_id calendar_name with
  | none => (CreateResult.calendarNotFound, db, [])
  | some calendar =>
  match apt_date?, apt_time? with
  | some apt_date, some apt_time =>
    let duration := service.duration_minutes
    let apt_end_time := timeOfMins ((apt_time.toMins + duration) % 1440)
    let available_slots := _get_available_slots_for_calendar db env
      calendar.id calendar.google_calendar_id apt_date duration true
    if apt_time ∈ available_slots then
      let extCalls :=
        if env.clientOk then [ExtCall.createEvent calendar.google_calendar_id]
        else []
      let google_event_id : GEventVal :=
        if env.clientOk then
          match createReturns with
          | some (event_id, meet_link) => GEventVal.tuple event_id meet_link
          | none => GEventVal.vNone
        else GEventVal.vNone
      match google_event_id with
      | GEventVal.tuple _ _ => (CreateResult.raisedEventIdBind, db, extCalls)
      | GEventVal.vNone =>
        let row := mkAppointmentRow new_id user_id service calendar branch_id
          apt_date apt_time apt_end_time none now
        (CreateResult.ok new_id (db.get_branch branch_id),
          { db with appointments := db.appointments ++ [row] }, extCalls)
    else if available_slots.isEmpty then (CreateResult.noSlots, db, [])
    else (CreateResult.notAvailable (available_slots.take 5), db, [])
  | _, _ => (CreateResult.invalidDateTime, db, [])

/-- Return value of the `cancel_appointment` tool. -/
inductive CancelResult
  | notFound
  /-- "Esta cita ya fue cancelada anteriormente." -/
  | alreadyCancelled
  /-- the success payload, built from the pre-update row plus the reason. -/
  | ok (service : String) (d : PyDate) (t : TimeOfDay) (reason : String)
deriving DecidableEq, Repr

/-- Embedding of the `cancel_appointment` tool. A missing appointment and an
already-cancelled appointment return descriptive messages without touching
the store or the external calendar; otherwise a best-effort external delete
is attempted (only when a truthy `google_event_id` is stored, the calendar
row resolves and the client authenticates — any failure is swallowed) and
the row is marked cancelled with the reason, actor `"user"` and the current
timestamp. -/
def cancel_appointment (db : Db) (env : CalendarEnv) (now : Instant)
    (appointment_id reason : String) : CancelResult × Db × List ExtCall :=
  match db.get_appointment appointment_id with
  | none => (CancelResult.notFound, db, [])
  | some appointment =>
    if appointment.status = "cancelled" then
      (CancelResult.alreadyCancelled, db, [])
    else
      let extCalls :=
        match appointment.google_event_id with
        | some event_id =>
          if event_id ≠ "" ∧ env.clientOk then
            match db.get_calendar appointment.calendar_id with
            | some calendar =>
              [ExtCall.deleteEvent calendar.google_calendar_id event_id]
            | none => []
          else []
        | none => []
      (CancelResult.ok appointment.service_name_snapshot
        appointment.appointment_date appointment.start_time reason,
        db.cancel_appointment appointment_id reason "user" now, extCalls)

/-- Return value of the `reschedule_appointment` tool. -/
inductive RescheduleResult
  | notFound
  /-- "Solo se pueden reagendar citas activas." -/
  | notActive
  /-- `date.fromisoformat` / `time.fromisoformat` raised `ValueError`. -/
  | invalidDateTime
  /-- `db.get_calendar` returned `None` and the unguarded subscript raised. -/
  | raisedCalendarMissing
  /-- requested time absent, alternatives offered (`available_slots[:5]`). -/
  | notAvailable (alternatives : List TimeOfDay)
  /-- requested time absent and the availability list was empty. -/
  | noSlots
  /-- the sqlite UPDATE raised: no adapter exists for the
  `(event_id, meet_link)` tuple left in `new_event_id`, so the bind fails
  and the row is left unmodified. -/
  | raisedEventIdBind
  /-- the success payload (snapshots from the pre-update row). -/
  | ok (service employee : String) (d : PyDate) (t : TimeOfDay)
deriving DecidableEq, Repr

/-- Embedding of the `reschedule_appointment` tool. Requires the stored
status to be exactly `"scheduled"`; re-runs the availability computation for
the new date/time; on acceptance best-effort deletes and recreates the
external event (only when the old `google_event_id` is truthy) and updates
date, start, end, `google_event_id` and `updated_at` in place —
`createReturns` is the outcome of `create_appointment_event` as in
`create_appointment`, and when it completed with its tuple the sqlite
UPDATE cannot bind it, raises, and leaves the row unmodified. -/
def reschedule_appointment (db : Db) (env : CalendarEnv)
    (createReturns : Option (Option String × Option String))
    (now : Instant) (appointment_id : String)
    (new_date? : Option PyDate) (new_time? : Option TimeOfDay) :
    RescheduleResult × Db × List ExtCall :=
  match db.get_appointment appointment_id with
  | none => (RescheduleResult.notFound, db, [])
  | some appointment =>
    if appointment.status ≠ "scheduled" then
      (RescheduleResult.notActive, db, [])
    else
      match new_date?, new_time? with
      | some apt_date, some apt_time =>
        match db.get_calendar appointment.calendar_id with
        | none => (RescheduleResult.raisedCalendarMissing, db, [])
        | some calendar =>
          let duration := appointment.service_duration_snapshot
          let available_slots := _get_available_slots_for_calendar db env
            calendar.id calendar.google_calendar_id apt_date duration true
          if apt_time ∈ available_slots then
            let oldTruthy := optStrTruthy appointment.google_event_id
            let extCalls :=
              if oldTruthy then
                if env.clientOk then
                  [ExtCall.deleteEvent calendar.google_calendar_id
                      (appointment.google_event_id.getD ""),
                   ExtCall.createEvent calendar.google_calendar_id]
                else []
              else []
            let new_event_id : GEventVal :=
              if oldTruthy ∧ env.clientOk then
                match createReturns with
                | some (event_id, meet_link) =>
                  GEventVal.tuple event_id meet_link
                | none => GEventVal.vNone
              else GEventVal.vNone
            match new_event_id with
            | GEventVal.tuple _ _ =>
              (RescheduleResult.raisedEventIdBind, db, extCalls)
            | GEventVal.vNone =>
              let end_time := timeOfMins ((apt_time.toMins + duration) % 1440)
              let db' : Db :=
                { db with
                  appointments := db.appointments.map fun a =>
                    if a.id = appointment_id then
                      { a with
                        appointment_date := apt_date
                        start_time := apt_time
                        end_time := end_time
                        google_event_id := none
                        updated_at := now }
                    else a }
              (RescheduleResult.ok appointment.service_name_snapshot
                appointment.calendar_name_snapshot apt_date apt_time, db',
                extCalls)
          else if available_slots.isEmpty then
            (RescheduleResult.noSlots, db, [])
          else
            (RescheduleResult.notAvailable (available_slots.take 5), db, [])
      | _, _ => (RescheduleResult.invalidDateTime, db, [])

/-! ## Message store and memory maintenance (src/src/agent.py) -/

/-- A row of the `messages` table as the orchestrator reads it. -/
structure DbMsg where
  role : String
  content : String
  tool_name : Option String := none
deriving DecidableEq, Repr

/-- `MAX_MESSAGES_BEFORE_SUMMARY` in src/src/agent.py. -/
def MAX_MESSAGES_BEFORE_SUMMARY : Nat := 6

/-- The last `n` elements in chronological order: the embedding of
`get_conversation_messages(..., limit=n)` (`ORDER BY created_at DESC LIMIT
n`, then reversed). -/
def takeLast {α : Type} (n : Nat) (l : List α) : List α :=
  l.drop (l.length - n)

/-- The inner `format_db_messages_for_summary` of `summarize_if_needed`:
`"Usuario: "` lines for human messages, `"Asistente: "` lines for ai
messages without a tool name, joined by newlines. -/
def format_db_messages_for_summary (msgs : List DbMsg) : String :=
  String.intercalate "\n" (msgs.filterMap fun m =>
    if m.role = "human" then some ("Usuario: " ++ m.content)
    else if m.role = "ai" ∧ ¬ optStrTruthy m.tool_name then
      some ("Asistente: " ++ m.content)
    else none)

/-- `SUMMARY_PROMPT.format(conversation=...)`: the creation prompt around the
formatted conversation. -/
def renderSummaryPrompt (conversation : String) : String :=
  "Eres un asistente que resume conversaciones de manera concisa.\n" ++
    "Conversación:\n" ++ conversation ++ "\n\nResumen conciso:"

/-- `UPDATE_SUMMARY_PROMPT.format(existing_summary=..., new_messages=...)`. -/
def renderUpdateSummaryPrompt (existing_summary new_messages : String) :
    String :=
  "Eres un asistente que actualiza resúmenes de conversaciones.\n\n" ++
    "Resumen anterior:\n" ++ existing_summary ++ "\n\nNuevos mensajes:\n" ++
    new_messages ++
    "\n\nActualiza el resumen incorporando la nueva información de manera concisa:"

/-- The branch `summarize_if_needed` takes, and the messages it feeds the
LLM. -/
inductive SummarizeAction
  /-- fewer than `MAX_MESSAGES_BEFORE_SUMMARY + 1` stored messages: no-op. -/
  | skip
  /-- first summary: `db_messages[:-2]`. -/
  | create (input : List DbMsg)
  /-- update of an existing summary: `db_messages[-4:]`. -/
  | update (existing : String) (input : List DbMsg)
deriving DecidableEq, Repr

/-- Which branch `summarize_if_needed` takes for a given message store and
stored summary. -/
def summarizeAction (db_messages : List DbMsg)
    (existing_summary : Option String) : SummarizeAction :=
  if db_messages.length ≤ MAX_MESSAGES_BEFORE_SUMMARY then SummarizeAction.skip
  else
    match existing_summary with
    | some s =>
      SummarizeAction.update s (db_messages.drop (db_messages.length - 4))
    | none => SummarizeAction.create (db_messages.take (db_messages.length - 2))

/-- Embedding of the `summarize_if_needed` node: returns the text stored into
the conversation's `summary` column by `update_conversation_summary`
(replacing any previous value), or `none` when the node does nothing. `llm`
is the black-box model call on the rendered prompt. -/
def summarize_if_needed (db_messages : List DbMsg)
    (existing_summary : Option String) (llm : String → String) :
    Option String :=
  match summarizeAction db_messages existing_summary with
  | SummarizeAction.skip => none
  | SummarizeAction.create input =>
    some (llm (renderSummaryPrompt (format_db_messages_for_summary input)))
  | SummarizeAction.update existing input =>
    some (llm (renderUpdateSummaryPrompt existing
      (format_db_messages_for_summary input)))

/-- The message-persistence step of the `load_context` node: load the stored
history (only the last 6 messages when a tier-2 summary exists), then append
the inbound user message unless the immediately preceding stored message is
an identical human message. Returns the message store after the step. -/
def loadContextStoreInbound (stored : List DbMsg) (has_summary : Bool)
    (new_user_message : Option String) : List DbMsg :=
  let db_messages := if has_summary then takeLast 6 stored else stored
  match new_user_message with
  | none => stored
  | some content =>
    let should_save : Bool :=
      match db_messages.getLast? with
      | some last_db_msg =>
        ¬(last_db_msg.role = "human" ∧ last_db_msg.content = content)
      | none => true
    if should_save then
      stored ++ [{ role := "human", content := content }]
    else stored

/-! ## Tier-3 profile merge (src/src/memory/total.py)

`TotalMemory.update_profile` manipulates the `model_dump()` dict of a
pydantic `UserProfile` dynamically, so the profile is embedded as an ordered
field dict of Python values. -/

/-- A Python value stored in a profile field. -/
inductive PyVal
  | vNone
  | vStr (s : String)
  | vInt (n : Int)
  | vList (l : List String)
deriving DecidableEq, Repr

/-- An ordered string-keyed dict of Python values (`model_dump()` output or
an extraction-update dict). -/
abbrev PyDict := List (String × PyVal)

/-- Python `d[k]` lookup (first binding wins). -/
def dictGet (d : PyDict) (k : String) : Option PyVal :=
  (d.find? fun kv => kv.1 = k).map Prod.snd

/-- Python `d[k] = v` on a key already present (order preserved). -/
def dictSet (d : PyDict) (k : String) (v : PyVal) : PyDict :=
  d.map fun kv => if kv.1 = k then (k, v) else kv

/-- One iteration of the `for key, value in updates.items()` loop of
`TotalMemory.update_profile`: skip unknown keys; union list-into-list
(appending the new items absent from the existing list, in order); append a
string to a list when missing; otherwise overwrite. -/
def applyProfileUpdate (data : PyDict) (kv : String × PyVal) : PyDict :=
  match dictGet data kv.1 with
  | none => data
  | some old =>
    match old, kv.2 with
    | PyVal.vList l, PyVal.vList v =>
      dictSet data kv.1 (PyVal.vList (l ++ v.filter fun item => ¬ l.contains item))
    | PyVal.vList l, PyVal.vStr s =>
      dictSet data kv.1 (PyVal.vList (if l.contains s then l else l ++ [s]))
    | _, v => dictSet data kv.1 v

/-- Embedding of `TotalMemory.update_profile`: fold the update dict over the
profile dump, then stamp `last_interaction` with the current time. -/
def update_profile (data : PyDict) (updates : PyDict) (now : String) : PyDict :=
  dictSet (updates.foldl applyProfileUpdate data) "last_interaction"
    (PyVal.vStr now)

/-- Embedding of `TotalMemory.extract_profile_updates`' error handling: a
response whose JSON decode fails yields the empty update dict. `parsed` is
the outcome of `json.loads` on the LLM response. -/
def extract_profile_updates (parsed : Option PyDict) : PyDict :=
  match parsed with
  | some updates => updates
  | none => []

/-- `data.get(k, [])` for a list-valued field. -/
def dictGetList (d : PyDict) (k : String) : List String :=
  match dictGet d k with
  | some (PyVal.vList l) => l
  | _ => []

/-- `data.get(k, 0)` for an int-valued field. -/
def dictGetInt (d : PyDict) (k : String) : Int :=
  match dictGet d k with
  | some (PyVal.vInt n) => n
  | _ => 0

/-- Python `int()` on a digit string (the embedding of
`int(appointment_time.split(":")[0])`'s integer conversion): `none` — a
raised `ValueError` — on an empty or non-digit input. -/
def digitsToNat? (cs : List Char) : Option Nat :=
  if cs.isEmpty then none
  else
    cs.foldl
      (fun acc c =>
        match acc with
        | none => none
        | some n =>
          if c.isDigit then some (n * 10 + (c.toNat - Char.toNat '0'))
          else none)
      (some 0)

/-- Embedding of `TotalMemory.update_after_appointment`: bump the
appointment counter, snapshot the last appointment, append the service and
employee to the preference lists when absent — capping them to the last 5
and last 3 entries respectively — and record the derived morning/afternoon
time-slot preference. `none` when `int()` rejects the hour prefix of
`appointment_time`. -/
def update_after_appointment (data : PyDict)
    (service_name employee_name appointment_date appointment_time now :
      String) : Option PyDict :=
  match digitsToNat? (appointment_time.toList.takeWhile fun c => c ≠ ':') with
  | none => none
  | some hour =>
    let d1 := dictSet data "total_appointments"
      (PyVal.vInt (dictGetInt data "total_appointments" + 1))
    let d2 := dictSet d1 "last_appointment_date" (PyVal.vStr appointment_date)
    let d3 := dictSet d2 "last_appointment_service" (PyVal.vStr service_name)
    let services := dictGetList d3 "preferred_services"
    let d4 :=
      if services.contains service_name then d3
      else dictSet d3 "preferred_services"
        (PyVal.vList (takeLast 5 (services ++ [service_name])))
    let employees := dictGetList d4 "preferred_employees"
    let d5 :=
      if employees.contains employee_name then d4
      else dictSet d4 "preferred_employees"
        (PyVal.vList (takeLast 3 (employees ++ [employee_name])))
    let time_slot := if hour < 12 then "mañana" else "tarde"
    let slots := dictGetList d5 "preferred_time_slots"
    let d6 :=
      if slots.contains time_slot then d5
      else dictSet d5 "preferred_time_slots" (PyVal.vList (slots ++ [time_slot]))
    some (dictSet d6 "last_interaction" (PyVal.vStr now))

/-! ## Theorems -/

/-- The candidate `[cur, send)` overlaps no booked block iff every booked
block lies entirely at or after `send`, or entirely at or before `cur`. -/
theorem overlapsBooked_eq_false_iff (cur send : Nat) (booked : List TimeBlock) :
    overlapsBooked cur send booked = false ↔
      ∀ b ∈ booked, send ≤ b.1.toMins ∨ b.2.toMins ≤ cur := by
  simp only [overlapsBooked, List.any_eq_false, decide_eq_true_eq, not_or,
    not_and, not_not, Prod.forall]
  constructor
  · intro h a b hab
    by_cases hlt : send ≤ a.toMins
    · exact Or.inl hlt
    · exact Or.inr (by simpa using h a b hab (by omega))
  · intro h a b hab hlt
    rcases h a b hab with h' | h'
    · omega
    · omega

/-- Membership in the fuel-indexed block walk, for sufficient fuel: exactly
the candidates `cur + k * duration` that fit in the block and clear every
booked slot. -/
theorem mem_slotsInBlockAux (booked : List TimeBlock) (duration endMins : Nat) :
    ∀ (fuel curMins : Nat), endMins + 1 - curMins ≤ fuel →
      ∀ t : TimeOfDay,
        (t ∈ slotsInBlockAux booked duration endMins fuel curMins ↔
          ∃ k : Nat, 0 < duration ∧
            curMins + k * duration + duration ≤ endMins ∧
            overlapsBooked (curMins + k * duration)
              (curMins + k * duration + duration) booked = false ∧
            t = timeOfMins (curMins + k * duration)) := by
  intro fuel
  induction fuel with
  | zero =>
    intro cur hfuel t
    constructor
    · intro h
      simp [slotsInBlockAux] at h
    · rintro ⟨k, hd, hle, -, -⟩
      exfalso
      have hmono : cur + duration ≤ cur + k * duration + duration :=
        Nat.add_le_add_right (Nat.le_add_right _ _) _
      omega
  | succ fuel ih =>
    intro cur hfuel t
    by_cases hg : 0 < duration ∧ cur + duration ≤ endMins
    · have hrec := ih (cur + duration) (by omega) t
      rw [slotsInBlockAux, if_pos hg, List.mem_append]
      constructor
      · intro h'
        rcases h' with hmem | hmem
        · by_cases hov : overlapsBooked cur (cur + duration) booked
          · simp [hov] at hmem
          · simp only [Bool.not_eq_true] at hov
            simp [hov] at hmem
            subst hmem
            exact ⟨0, hg.1, by simpa using hg.2, by simpa using hov, by simp⟩
        · obtain ⟨k, hd, hle, hov, ht⟩ := hrec.mp hmem
          have hkd : cur + duration + k * duration = cur + (k + 1) * duration := by
            ring
          refine ⟨k + 1, hd, ?_, ?_, ?_⟩
          · omega
          · rw [← hkd]
            exact hov
          · rw [← hkd]
            exact ht
      · rintro ⟨k, hd, hle, hov, ht⟩
        cases k with
        | zero =>
          left
          simp only [Nat.zero_mul, Nat.add_zero] at hle hov ht
          have hov' : overlapsBooked cur (cur + duration) booked = false := hov
          simp [hov', ht]
        | succ k =>
          right
          apply hrec.mpr
          have hkd : cur + duration + k * duration = cur + (k + 1) * duration := by
            ring
          refine ⟨k, hd, by omega, ?_, ?_⟩
          · rw [hkd]
            exact hov
          · rw [hkd]
            exact ht
    · rw [slotsInBlockAux, if_neg hg]
      constructor
      · intro h'
        simp at h'
      · rintro ⟨k, hd, hle, -, -⟩
        exfalso
        have hmono : cur + duration ≤ cur + k * duration + duration :=
          Nat.add_le_add_right (Nat.le_add_right _ _) _
        omega

/-- Membership in the walk over one availability block. -/
theorem mem_slotsInBlock (booked : List TimeBlock) (duration endMins curMins :
    Nat) (t : TimeOfDay) :
    t ∈ slotsInBlock booked duration endMins curMins ↔
      ∃ k : Nat, 0 < duration ∧
        curMins + k * duration + duration ≤ endMins ∧
        overlapsBooked (curMins + k * duration)
          (curMins + k * duration + duration) booked = false ∧
        t = timeOfMins (curMins + k * duration) :=
  mem_slotsInBlockAux booked duration endMins _ curMins (Nat.le_refl _) t

/-- C4: for a single marker block walked in increments of the requested
duration, `calculate_available_slots` contains a time iff it is a generated
candidate `start + k·duration` whose slot fits in the block and satisfies,
for every booked block, candidateEnd ≤ bookedStart or candidateStart ≥
bookedEnd. -/
theorem C4_overlap_rejection (block_start block_end : TimeOfDay)
    (booked : List TimeBlock) (duration : Nat) (hdur : 0 < duration)
    (t : TimeOfDay) :
    t ∈ calculate_available_slots [(block_start, block_end)] booked
        duration ↔
      ∃ k : Nat, t = timeOfMins (block_start.toMins + k * duration) ∧
        block_start.toMins + k * duration + duration ≤ block_end.toMins ∧
        ∀ b ∈ booked,
          block_start.toMins + k * duration + duration ≤ b.1.toMins ∨
            b.2.toMins ≤ block_start.toMins + k * duration := by
  have h0 : calculate_available_slots [(block_start, block_end)] booked
      duration = slotsInBlock booked duration block_end.toMins
        block_start.toMins := by
    simp [calculate_available_slots]
  rw [h0, mem_slotsInBlock]
  constructor
  · rintro ⟨k, -, hle, hov, ht⟩
    exact ⟨k, ht, hle, (overlapsBooked_eq_false_iff _ _ _).mp hov⟩
  · rintro ⟨k, ht, hle, hov⟩
    exact ⟨k, hdur, hle, (overlapsBooked_eq_false_iff _ _ _).mpr hov, ht⟩

/-- C4 witness: the characterization applied to the block [10:00, 12:00)
with booked block [10:00, 10:40) and duration 40; the 10:00 candidate
(`k = 0`) is eliminated while 10:40 (`k = 1`) is kept, and in the separate
block [09:00, 09:40) the 09:00 candidate survives. -/
theorem C4_overlap_rejection_witness :
    (0 < 40 ∧
      ((⟨10, 0⟩ : TimeOfDay) ∈
          calculate_available_slots [(⟨10, 0⟩, ⟨12, 0⟩)]
            [(⟨10, 0⟩, ⟨10, 40⟩)] 40 ↔
        ∃ k : Nat, (⟨10, 0⟩ : TimeOfDay) =
            timeOfMins ((⟨10, 0⟩ : TimeOfDay).toMins + k * 40) ∧
          (⟨10, 0⟩ : TimeOfDay).toMins + k * 40 + 40 ≤
            (⟨12, 0⟩ : TimeOfDay).toMins ∧
          ∀ b ∈ ([(⟨10, 0⟩, ⟨10, 40⟩)] : List TimeBlock),
            (⟨10, 0⟩ : TimeOfDay).toMins + k * 40 + 40 ≤ b.1.toMins ∨
              b.2.toMins ≤ (⟨10, 0⟩ : TimeOfDay).toMins + k * 40)) ∧
    (⟨10, 0⟩ : TimeOfDay) ∉
        calculate_available_slots [(⟨10, 0⟩, ⟨12, 0⟩)] [(⟨10, 0⟩, ⟨10, 40⟩)]
          40 ∧
    (⟨10, 40⟩ : TimeOfDay) ∈
        calculate_available_slots [(⟨10, 0⟩, ⟨12, 0⟩)] [(⟨10, 0⟩, ⟨10, 40⟩)]
          40 ∧
    (⟨9, 0⟩ : TimeOfDay) ∈
        calculate_available_slots [(⟨9, 0⟩, ⟨9, 40⟩)] [(⟨10, 0⟩, ⟨10, 40⟩)]
          40 :=
  ⟨⟨by decide,
    C4_overlap_rejection ⟨10, 0⟩ ⟨12, 0⟩ [(⟨10, 0⟩, ⟨10, 40⟩)] 40
      (by decide) ⟨10, 0⟩⟩,
   by decide, by decide, by decide⟩

/-- `GoogleCalendarClient` defines no method named
`get_mock_ai_availability`, so the attribute lookup opening the Google
branch raises whenever the client itself was obtained — the branch can only
end in an exception. -/
theorem googleBranchSlots_error (env : CalendarEnv) (duration : Nat) :
    ∃ msg, googleBranchSlots env duration = Except.error msg := by
  obtain ⟨ok, m, b⟩ := env
  cases ok
  · exact ⟨"get_calendar_client failed", rfl⟩
  · exact ⟨"AttributeError: no attribute get_mock_ai_availability", rfl⟩

/-- The Google branch of `_get_available_slots_for_calendar` always maps its
raised exception to the empty list when a non-empty `google_calendar_id`
selects it. -/
theorem getAvailableSlots_google_empty (db : Db) (env : CalendarEnv)
    (calendar_id google_calendar_id : String) (target_date : PyDate)
    (duration : Nat) (hgcid : google_calendar_id ≠ "") :
    _get_available_slots_for_calendar db env calendar_id google_calendar_id
      target_date duration true = [] := by
  obtain ⟨msg, hmsg⟩ := googleBranchSlots_error env duration
  simp [_get_available_slots_for_calendar, hgcid, hmsg]

/-- C1: for a calendar whose `google_calendar_id` is non-empty, the Google
branch of `_get_available_slots_for_calendar` always returns the empty list
(the call to the undefined `get_mock_ai_availability` raises and the handler
maps the exception to `[]`), and consequently neither `create_appointment`
nor `reschedule_appointment` resolving such a calendar ever changes the
store or returns success. -/
theorem C1_google_path_never_books :
    (∀ (db : Db) (env : CalendarEnv) (calendar_id google_calendar_id : String)
        (target_date : PyDate) (duration : Nat),
        google_calendar_id ≠ "" →
        _get_available_slots_for_calendar db env calendar_id
          google_calendar_id target_date duration true = []) ∧
    (∀ (db : Db) (env : CalendarEnv)
        (createReturns : Option (Option String × Option String))
        (new_id : String) (now : Instant)
        (user_id branch_id service_name calendar_name : String)
        (d? : Option PyDate) (t? : Option TimeOfDay) (cal : CalendarRow),
        db.find_calendar_by_name branch_id calendar_name = some cal →
        cal.google_calendar_id ≠ "" →
        (create_appointment db env createReturns new_id now user_id branch_id
            service_name calendar_name d? t?).2.1 = db ∧
          ∀ aid br,
            (create_appointment db env createReturns new_id now user_id
                branch_id service_name calendar_name d? t?).1 ≠
              CreateResult.ok aid br) ∧
    (∀ (db : Db) (env : CalendarEnv)
        (createReturns : Option (Option String × Option String))
        (now : Instant) (appointment_id : String) (d? : Option PyDate)
        (t? : Option TimeOfDay) (apt : AppointmentRow) (cal : CalendarRow),
        db.get_appointment appointment_id = some apt →
        db.get_calendar apt.calendar_id = some cal →
        cal.google_calendar_id ≠ "" →
        (reschedule_appointment db env createReturns now appointment_id d?
            t?).2.1 = db ∧
          ∀ s e dd tt,
            (reschedule_appointment db env createReturns now appointment_id
                d? t?).1 ≠ RescheduleResult.ok s e dd tt) := by
  have hempty := getAvailableSlots_google_empty
  refine ⟨fun db env cid gcid d dur h => hempty db env cid gcid d dur h,
    ?_, ?_⟩
  · intro db env gc nid now uid bid sname cname d? t? cal hcal hgcid
    unfold create_appointment
    cases hu : db.get_user uid with
    | none =>
      cases hc : db.get_client uid <;> simp
    | some u =>
      cases hs : db.find_service_by_name bid sname with
      | none => simp
      | some service =>
        rw [hcal]
        cases d? with
        | none => cases t? <;> simp
        | some d =>
          cases t? with
          | none => simp
          | some t =>
            have hs0 := hempty db env cal.id cal.google_calendar_id d
              service.duration_minutes hgcid
            simp [hs0]
  · intro db env gc now aid d? t? apt cal hapt hcal hgcid
    unfold reschedule_appointment
    rw [hapt]
    by_cases hst : apt.status = "scheduled"
    · simp only [hst, ne_eq, not_true_eq_false, if_neg, if_false]
      cases d? with
      | none => cases t? <;> simp
      | some d =>
        cases t? with
        | none => simp
        | some t =>
          rw [hcal]
          have hs0 := hempty db env cal.id cal.google_calendar_id d
            apt.service_duration_snapshot hgcid
          simp [hs0]
    · simp [hst]

/-- Demo store: one business, one branch, one 40-minute service, one
calendar bound to a non-empty Google calendar id, one scheduled
appointment. -/
def demoCalendar : CalendarRow :=
  ⟨"cal-1", "b-1", "Maria", "gcal-1", ⟨9, 0⟩, ⟨17, 0⟩, true⟩

/-- Demo service row. -/
def demoService : ServiceRow := ⟨"svc-1", "b-1", "Corte", 10, 40, true⟩

/-- Demo user row. -/
def demoUser : UserRow := ⟨"u-1", "Luis", "0102030405", "+59399"⟩

/-- Demo scheduled appointment on the demo calendar. -/
def demoAppointment : AppointmentRow :=
  ⟨"apt-1", "u-1", "cal-1", "svc-1", "b-1", "Corte", 10, 40, "Maria",
    ⟨2026, 10, 20⟩, ⟨10, 0⟩, ⟨10, 40⟩, some "evt-1", "scheduled", none, none,
    none, 0, 0⟩

/-- Demo calendar with no Google binding (empty `google_calendar_id`), so
availability for it comes from the default-schedule fallback. -/
def demoCalendar2 : CalendarRow :=
  ⟨"cal-2", "b-1", "Pedro", "", ⟨9, 0⟩, ⟨17, 0⟩, true⟩

/-- Demo appointment already cancelled. -/
def demoAppointmentCancelled : AppointmentRow :=
  ⟨"apt-9", "u-1", "cal-1", "svc-1", "b-1", "Corte", 10, 40, "Maria",
    ⟨2026, 9, 1⟩, ⟨11, 0⟩, ⟨11, 40⟩, none, "cancelled", some "user request",
    some 1, some "user", 0, 1⟩

/-- Demo scheduled appointment on the calendar without a Google binding. -/
def demoAppointment2 : AppointmentRow :=
  ⟨"apt-3", "u-1", "cal-2", "svc-1", "b-1", "Corte", 10, 40, "Pedro",
    ⟨2026, 10, 20⟩, ⟨10, 0⟩, ⟨10, 40⟩, none, "scheduled", none, none, none,
    0, 0⟩

/-- Demo scheduled appointment on the unbound calendar that still carries a
truthy stored event id (written by an earlier code revision or seed). -/
def demoAppointment3 : AppointmentRow :=
  ⟨"apt-4", "u-1", "cal-2", "svc-1", "b-1", "Corte", 10, 40, "Pedro",
    ⟨2026, 10, 19⟩, ⟨11, 0⟩, ⟨11, 40⟩, some "evt-4", "scheduled", none, none,
    none, 0, 0⟩

/-- The demo store. -/
def demoDb : Db :=
  ⟨[⟨"cli-1"⟩], [⟨"b-1", "Centro", "Av. 1"⟩], [demoService],
    [demoCalendar, demoCalendar2], [demoUser],
    [demoAppointment, demoAppointmentCancelled, demoAppointment2,
      demoAppointment3]⟩

/-- A calendar environment whose client authenticates. -/
def demoEnv : CalendarEnv := ⟨true, [], []⟩

/-- C1 witness: on the demo store the Google-bound calendar yields no slots,
and a create / reschedule against it leaves the store unchanged. -/
theorem C1_google_path_never_books_witness :
    _get_available_slots_for_calendar demoDb demoEnv "cal-1" "gcal-1"
        ⟨2026, 10, 20⟩ 40 true = [] ∧
      (create_appointment demoDb demoEnv none "apt-2" 5 "u-1" "b-1" "Corte"
          "Maria" (some ⟨2026, 10, 21⟩) (some ⟨10, 0⟩)).2.1 = demoDb ∧
      (reschedule_appointment demoDb demoEnv none 5 "apt-1"
          (some ⟨2026, 10, 22⟩) (some ⟨11, 0⟩)).2.1 = demoDb := by
  refine ⟨C1_google_path_never_books.1 demoDb demoEnv "cal-1" "gcal-1"
      ⟨2026, 10, 20⟩ 40 (by decide), ?_, ?_⟩
  · exact (C1_google_path_never_books.2.1 demoDb demoEnv none "apt-2" 5 "u-1"
      "b-1" "Corte" "Maria" (some ⟨2026, 10, 21⟩) (some ⟨10, 0⟩) demoCalendar
      (by decide) (by decide)).1
  · exact (C1_google_path_never_books.2.2 demoDb demoEnv none 5 "apt-1"
      (some ⟨2026, 10, 22⟩) (some ⟨11, 0⟩) demoAppointment demoCalendar
      (by decide) (by decide) (by decide)).1

/-- C5 counterexample: on the demo-like store the calendar fetch raises (the
client is fine but the marker-fetch attribute is missing), yet the result is
`[]` and not the non-empty slot list the default schedule with the locally
recorded appointments would produce — no degraded fallback happens on a
raising fetch. -/
theorem C5_counterexample :
    (∃ msg, googleBranchSlots demoEnv 40 = Except.error msg) ∧
      _get_available_slots_for_calendar demoDb demoEnv "cal-1" "gcal-1"
        ⟨2026, 10, 21⟩ 40 true = [] ∧
      calculate_available_slots
          [(demoCalendar.default_start_time, demoCalendar.default_end_time)]
          ((demoDb.get_appointments_by_calendar_and_date "cal-1"
              ⟨2026, 10, 21⟩).map fun a => (a.start_time, a.end_time))
          40 ≠ [] := by
  refine ⟨googleBranchSlots_error demoEnv 40, ?_, by decide⟩
  exact getAvailableSlots_google_empty demoDb demoEnv "cal-1" "gcal-1"
    ⟨2026, 10, 21⟩ 40 (by decide)

/-- C5 (amended): a raising calendar fetch yields the empty list — no
degraded fallback — while the locally-stored default schedule combined with
the locally recorded appointments is consulted exactly when no
`google_calendar_id` is configured (or `use_google` is off); the Google
branch can only raise, so its zero-marker short-circuit is unreachable and
every Google-branch invocation is empty. -/
theorem C5_fallback_only_without_google_id :
    (∀ (db : Db) (env : CalendarEnv) (cid gcid : String) (d : PyDate)
        (dur : Nat), gcid ≠ "" →
        (∃ msg, googleBranchSlots env dur = Except.error msg) ∧
          _get_available_slots_for_calendar db env cid gcid d dur true = []) ∧
    (∀ (db : Db) (env : CalendarEnv) (cid gcid : String) (d : PyDate)
        (dur : Nat) (use_google : Bool), use_google = false ∨ gcid = "" →
        _get_available_slots_for_calendar db env cid gcid d dur use_google =
          match db.get_calendar cid with
          | none => []
          | some calendar =>
            calculate_available_slots
              [(calendar.default_start_time, calendar.default_end_time)]
              ((db.get_appointments_by_calendar_and_date cid d).map fun a =>
                (a.start_time, a.end_time)) dur) := by
  constructor
  · intro db env cid gcid d dur hgcid
    exact ⟨googleBranchSlots_error env dur,
      getAvailableSlots_google_empty db env cid gcid d dur hgcid⟩
  · intro db env cid gcid d dur use_google h
    have hcond : ¬((use_google : Prop) ∧ gcid ≠ "") := by
      rcases h with h | h
      · subst h
        simp
      · subst h
        simp
    rw [_get_available_slots_for_calendar, if_neg hcond]

/-- C5 witness: the amended statement applied to the demo store — Google
branch empty for the bound calendar, and with `use_google = false` the
default 09:00–17:00 schedule minus the stored 10:00–10:40 appointment. -/
theorem C5_fallback_only_without_google_id_witness :
    (_get_available_slots_for_calendar demoDb demoEnv "cal-1" "gcal-1"
        ⟨2026, 10, 20⟩ 40 true = []) ∧
      _get_available_slots_for_calendar demoDb demoEnv "cal-1" "gcal-1"
          ⟨2026, 10, 20⟩ 40 false =
        match demoDb.get_calendar "cal-1" with
        | none => []
        | some calendar =>
          calculate_available_slots
            [(calendar.default_start_time, calendar.default_end_time)]
            ((demoDb.get_appointments_by_calendar_and_date "cal-1"
                ⟨2026, 10, 20⟩).map fun a => (a.start_time, a.end_time)) 40 :=
  ⟨(C5_fallback_only_without_google_id.1 demoDb demoEnv "cal-1" "gcal-1"
      ⟨2026, 10, 20⟩ 40 (by decide)).2,
   C5_fallback_only_without_google_id.2 demoDb demoEnv "cal-1" "gcal-1"
      ⟨2026, 10, 20⟩ 40 false (Or.inl rfl)⟩

/-- C2: `create_appointment` changes the store only when the requested start
time is a member of the availability list recomputed inside the call, and
then the change is exactly one appended row with status `"scheduled"` (and a
NULL stored event id — the row is only reached when the best-effort
Google-event block left `google_event_id = None`); when the requested time
is absent, the store is unchanged and any alternatives offered are
`available_slots[:5]` — at most five times taken from the computed list;
when the external event call completes, its tuple return makes the INSERT
raise and no row is persisted either. -/
theorem C2_commit_time_revalidation
    (db : Db) (env : CalendarEnv)
    (createReturns : Option (Option String × Option String))
    (new_id : String) (now : Instant)
    (user_id branch_id service_name calendar_name : String)
    (apt_date : PyDate) (apt_time : TimeOfDay) :
    ((create_appointment db env createReturns new_id now user_id branch_id
          service_name calendar_name (some apt_date) (some apt_time)).2.1 ≠
        db →
      ∃ service calendar,
        db.find_service_by_name branch_id service_name = some service ∧
          db.find_calendar_by_name branch_id calendar_name = some calendar ∧
          apt_time ∈ _get_available_slots_for_calendar db env calendar.id
            calendar.google_calendar_id apt_date service.duration_minutes
            true ∧
          (mkAppointmentRow new_id user_id service calendar branch_id
            apt_date apt_time
            (timeOfMins ((apt_time.toMins + service.duration_minutes) %
              1440)) none now).status = "scheduled" ∧
          (create_appointment db env createReturns new_id now user_id
              branch_id service_name calendar_name (some apt_date)
              (some apt_time)).2.1 =
            { db with
              appointments := db.appointments ++
                [mkAppointmentRow new_id user_id service calendar branch_id
                  apt_date apt_time
                  (timeOfMins ((apt_time.toMins + service.duration_minutes)
                    % 1440)) none now] }) ∧
    (∀ service calendar,
      db.find_service_by_name branch_id service_name = some service →
      db.find_calendar_by_name branch_id calendar_name = some calendar →
      apt_time ∉ _get_available_slots_for_calendar db env calendar.id
          calendar.google_calendar_id apt_date service.duration_minutes
          true →
      (create_appointment db env createReturns new_id now user_id branch_id
          service_name calendar_name (some apt_date) (some apt_time)).2.1 =
        db ∧
        ∀ alts,
          (create_appointment db env createReturns new_id now user_id
              branch_id service_name calendar_name (some apt_date)
              (some apt_time)).1 = CreateResult.notAvailable alts →
          alts.length ≤ 5 ∧
            ∀ t ∈ alts,
              t ∈ _get_available_slots_for_calendar db env calendar.id
                calendar.google_calendar_id apt_date
                service.duration_minutes true) ∧
    (∀ u service calendar p,
      db.get_user user_id = some u →
      db.find_service_by_name branch_id service_name = some service →
      db.find_calendar_by_name branch_id calendar_name = some calendar →
      apt_time ∈ _get_available_slots_for_calendar db env calendar.id
          calendar.google_calendar_id apt_date service.duration_minutes
          true →
      env.clientOk = true → createReturns = some p →
      (create_appointment db env createReturns new_id now user_id branch_id
          service_name calendar_name (some apt_date) (some apt_time)).1 =
        CreateResult.raisedEventIdBind ∧
      (create_appointment db env createReturns new_id now user_id branch_id
          service_name calendar_name (some apt_date) (some apt_time)).2.1 =
        db) := by
  refine ⟨?_, ?_, ?_⟩
  · intro hne
    cases hu : db.get_user user_id with
    | none =>
      exfalso
      apply hne
      cases hc : db.get_client user_id <;>
        simp [create_appointment, hu, hc]
    | some u =>
      cases hs : db.find_service_by_name branch_id service_name with
      | none =>
        exfalso
        apply hne
        simp [create_appointment, hu, hs]
      | some service =>
        cases hcal : db.find_calendar_by_name branch_id calendar_name with
        | none =>
          exfalso
          apply hne
          simp [create_appointment, hu, hs, hcal]
        | some calendar =>
          by_cases hmem : apt_time ∈ _get_available_slots_for_calendar db env
            calendar.id calendar.google_calendar_id apt_date
            service.duration_minutes true
          · refine ⟨service, calendar, rfl, rfl, hmem, rfl, ?_⟩
            by_cases hclient : env.clientOk
            · cases hcr : createReturns with
              | none =>
                simp [create_appointment, hu, hs, hcal, hmem, hclient, hcr]
              | some p =>
                exfalso
                apply hne
                obtain ⟨e, m⟩ := p
                simp [create_appointment, hu, hs, hcal, hmem, hclient, hcr]
            · simp [create_appointment, hu, hs, hcal, hmem, hclient]
          · exfalso
            apply hne
            cases hemp : (_get_available_slots_for_calendar db env
                calendar.id calendar.google_calendar_id apt_date
                service.duration_minutes true).isEmpty <;>
              simp [create_appointment, hu, hs, hcal, hmem, hemp]
  · intro service calendar hs hcal hmem
    cases hu : db.get_user user_id with
    | none =>
      cases hc : db.get_client user_id <;>
        simp [create_appointment, hu, hc]
    | some u =>
      cases hemp : (_get_available_slots_for_calendar db env calendar.id
          calendar.google_calendar_id apt_date
          service.duration_minutes true).isEmpty with
      | true =>
        simp [create_appointment, hu, hs, hcal, hmem, hemp]
      | false =>
        simp only [create_appointment, hu, hs, hcal]
        rw [if_neg hmem, if_neg (by simp [hemp])]
        refine ⟨rfl, ?_⟩
        intro alts halts
        have halts' : alts = (_get_available_slots_for_calendar db env
            calendar.id calendar.google_calendar_id apt_date
            service.duration_minutes true).take 5 := by
          cases halts
          rfl
        subst halts'
        exact ⟨List.length_take_le _ _, fun t ht => List.take_subset _ _ ht⟩
  · intro u service calendar p hu hs hcal hmem hclient hcr
    obtain ⟨e, m⟩ := p
    constructor <;>
      simp [create_appointment, hu, hs, hcal, hmem, hclient, hcr]

/-- C2 witness: on the demo store, booking "Corte" with Pedro at 09:00 (with
the external-event block raising, so `google_event_id` stays `None`) appends
exactly the scheduled row; 09:10 is rejected with the store unchanged and
the first five computed slots as alternatives; and when the external call
completes with its tuple, the INSERT raises and the store is unchanged. -/
theorem C2_commit_time_revalidation_witness :
    ((create_appointment demoDb demoEnv none "apt-2" 7 "u-1" "b-1" "Corte"
        "Pedro" (some ⟨2026, 10, 21⟩) (some ⟨9, 10⟩)).2.1 = demoDb ∧
      ∀ alts,
        (create_appointment demoDb demoEnv none "apt-2" 7 "u-1" "b-1" "Corte"
            "Pedro" (some ⟨2026, 10, 21⟩) (some ⟨9, 10⟩)).1 =
          CreateResult.notAvailable alts →
        alts.length ≤ 5 ∧
          ∀ t ∈ alts,
            t ∈ _get_available_slots_for_calendar demoDb demoEnv "cal-2" ""
              ⟨2026, 10, 21⟩ 40 true) ∧
    (∃ service calendar,
      demoDb.find_service_by_name "b-1" "Corte" = some service ∧
        demoDb.find_calendar_by_name "b-1" "Pedro" = some calendar ∧
        (⟨9, 0⟩ : TimeOfDay) ∈ _get_available_slots_for_calendar demoDb
          demoEnv calendar.id calendar.google_calendar_id ⟨2026, 10, 21⟩
          service.duration_minutes true ∧
        (create_appointment demoDb demoEnv none "apt-2" 7 "u-1" "b-1"
            "Corte" "Pedro" (some ⟨2026, 10, 21⟩) (some ⟨9, 0⟩)).2.1 =
          { demoDb with
            appointments := demoDb.appointments ++
              [mkAppointmentRow "apt-2" "u-1" service calendar "b-1"
                ⟨2026, 10, 21⟩ ⟨9, 0⟩
                (timeOfMins (((⟨9, 0⟩ : TimeOfDay).toMins +
                  service.duration_minutes) % 1440)) none 7] }) ∧
    ((create_appointment demoDb demoEnv (some (none, none)) "apt-2" 7 "u-1"
        "b-1" "Corte" "Pedro" (some ⟨2026, 10, 21⟩) (some ⟨9, 0⟩)).1 =
        CreateResult.raisedEventIdBind ∧
      (create_appointment demoDb demoEnv (some (none, none)) "apt-2" 7 "u-1"
          "b-1" "Corte" "Pedro" (some ⟨2026, 10, 21⟩)
          (some ⟨9, 0⟩)).2.1 = demoDb) := by
  refine ⟨?_, ?_, ?_⟩
  · exact (C2_commit_time_revalidation demoDb demoEnv none "apt-2" 7
      "u-1" "b-1" "Corte" "Pedro" ⟨2026, 10, 21⟩ ⟨9, 10⟩).2.1 demoService
      demoCalendar2 (by decide) (by decide) (by decide)
  · have h := (C2_commit_time_revalidation demoDb demoEnv none "apt-2" 7
      "u-1" "b-1" "Corte" "Pedro" ⟨2026, 10, 21⟩ ⟨9, 0⟩).1 (by decide)
    obtain ⟨service, calendar, hs, hcal, hmem, -, heq⟩ := h
    exact ⟨service, calendar, hs, hcal, hmem, heq⟩
  · exact (C2_commit_time_revalidation demoDb demoEnv (some (none, none))
      "apt-2" 7 "u-1" "b-1" "Corte" "Pedro" ⟨2026, 10, 21⟩ ⟨9, 0⟩).2.2
      demoUser demoService demoCalendar2 (none, none) (by decide) (by decide)
      (by decide) (by decide) (by decide) rfl

/-- Seven stored messages with pairwise distinct contents. -/
def demoMsgs7 : List DbMsg :=
  [⟨"human", "m1", none⟩, ⟨"ai", "m2", none⟩, ⟨"human", "m3", none⟩,
   ⟨"ai", "m4", none⟩, ⟨"human", "m5", none⟩, ⟨"ai", "m6", none⟩,
   ⟨"human", "m7", none⟩]

/-- C6 counterexample: at exactly 7 stored messages with no stored summary,
the first-summary branch feeds `db_messages[:-2]` — messages 1–5 — to the
LLM, not messages 1–6 as claimed. -/
theorem C6_counterexample :
    summarizeAction demoMsgs7 none =
        SummarizeAction.create (demoMsgs7.take 5) ∧
      summarizeAction demoMsgs7 none ≠
        SummarizeAction.create (demoMsgs7.take 6) ∧
      demoMsgs7.take 5 ≠ demoMsgs7.take 6 := by
  decide

/-- C6 (amended): a conversation reaching exactly 7 persisted messages with
no stored summary triggers tier-2 generation whose input is messages 1
through 5 — all but the last two — and the generated text is stored as the
conversation's summary (replacing the previous value). -/
theorem C6_summary_threshold (db_messages : List DbMsg)
    (llm : String → String) (h7 : db_messages.length = 7) :
    summarizeAction db_messages none =
        SummarizeAction.create (db_messages.take 5) ∧
      summarize_if_needed db_messages none llm =
        some (llm (renderSummaryPrompt
          (format_db_messages_for_summary (db_messages.take 5)))) := by
  have hact : summarizeAction db_messages none =
      SummarizeAction.create (db_messages.take 5) := by
    simp [summarizeAction, MAX_MESSAGES_BEFORE_SUMMARY, h7]
  exact ⟨hact, by simp [summarize_if_needed, hact]⟩

/-- C6 witness: the amended statement applied to the seven demo messages. -/
theorem C6_summary_threshold_witness :
    demoMsgs7.length = 7 ∧
      summarize_if_needed demoMsgs7 none (fun p => p) =
        some (renderSummaryPrompt
          (format_db_messages_for_summary (demoMsgs7.take 5))) :=
  ⟨by decide,
    (C6_summary_threshold demoMsgs7 (fun p => p) (by decide)).2⟩

/-- The last `n` (with `0 < n`) messages of a store end at the store's last
message. -/
theorem getLast?_takeLast {α : Type} (n : Nat) (l : List α) (hn : 0 < n) :
    (takeLast n l).getLast? = l.getLast? := by
  unfold takeLast
  by_cases hl : l.length ≤ n
  · rw [Nat.sub_eq_zero_of_le hl]
    rfl
  · have hne : l.drop (l.length - n) ≠ [] := by
      intro hcon
      have := congrArg List.length hcon
      simp [List.length_drop] at this
      omega
    conv_rhs => rw [← List.take_append_drop (l.length - n) l]
    rw [List.getLast?_append_of_ne_nil _ hne]

/-- C7: when the last stored message is a human message with exactly the
inbound content, `load_context` skips the insertion; otherwise it appends
the inbound message exactly once. -/
theorem C7_inbound_idempotence (stored : List DbMsg) (has_summary : Bool)
    (content : String) (last : DbMsg)
    (hlast : stored.getLast? = some last) :
    ((last.role = "human" ∧ last.content = content) →
      loadContextStoreInbound stored has_summary (some content) = stored) ∧
      (¬(last.role = "human" ∧ last.content = content) →
        loadContextStoreInbound stored has_summary (some content) =
          stored ++
            [{ role := "human", content := content, tool_name := none }]) := by
  have hview : (if has_summary then takeLast 6 stored else stored).getLast? =
      some last := by
    cases has_summary
    · simpa using hlast
    · rw [if_pos rfl, getLast?_takeLast 6 stored (by omega)]
      exact hlast
  constructor
  · intro hdup
    simp only [loadContextStoreInbound, hview]
    simp [hdup.1, hdup.2]
  · intro hne
    simp only [loadContextStoreInbound, hview]
    simp [hne]

/-- C7 witness: resubmitting the last demo message "m7" adds nothing, while
a fresh message "m8" is appended exactly once (both with and without a
summary-limited history view). -/
theorem C7_inbound_idempotence_witness :
    demoMsgs7.getLast? = some ⟨"human", "m7", none⟩ ∧
      loadContextStoreInbound demoMsgs7 true (some "m7") = demoMsgs7 ∧
      loadContextStoreInbound demoMsgs7 false (some "m8") =
        demoMsgs7 ++ [{ role := "human", content := "m8", tool_name := none }] := by
  refine ⟨by decide, ?_, ?_⟩
  · exact (C7_inbound_idempotence demoMsgs7 true "m7" ⟨"human", "m7", none⟩
      (by decide)).1 (by decide)
  · exact (C7_inbound_idempotence demoMsgs7 false "m8" ⟨"human", "m7", none⟩
      (by decide)).2 (by decide)

/-- Reading back the key just written (the key is present, as in every
`update_profile` write). -/
theorem dictGet_dictSet_self (d : PyDict) (k : String) (v : PyVal)
    (h : (dictGet d k).isSome) : dictGet (dictSet d k v) k = some v := by
  induction d with
  | nil => simp [dictGet] at h
  | cons kv rest ih =>
    by_cases hk : kv.1 = k
    · simp [dictGet, dictSet, hk]
    · simp only [dictGet, dictSet, List.map_cons, if_neg hk] at h ⊢
      rw [List.find?_cons_of_neg _ (by simpa using hk)] at h ⊢
      exact ih h

/-- Writing one key leaves every other key unchanged. -/
theorem dictGet_dictSet_ne (d : PyDict) (k k' : String) (v : PyVal)
    (h : k' ≠ k) : dictGet (dictSet d k v) k' = dictGet d k' := by
  induction d with
  | nil => rfl
  | cons kv rest ih =>
    by_cases hk : kv.1 = k
    · simp only [dictGet, dictSet, List.map_cons, if_pos hk]
      rw [List.find?_cons_of_neg _ (by simpa using fun hc : k = k' => h hc.symm),
        List.find?_cons_of_neg _
          (by simpa [hk] using fun hc : kv.1 = k' => h (hk ▸ hc).symm)]
      exact ih
    · simp only [dictGet, dictSet, List.map_cons, if_neg hk]
      by_cases hk' : kv.1 = k'
      · rw [List.find?_cons_of_pos _ (by simpa using hk'),
          List.find?_cons_of_pos _ (by simpa using hk')]
      · rw [List.find?_cons_of_neg _ (by simpa using hk'),
          List.find?_cons_of_neg _ (by simpa using hk')]
        exact ih

/-- A `model_dump()` of a demo `UserProfile`: the full field list, with five
preferred services already accumulated. -/
def demoProfile : PyDict :=
  [("full_name", PyVal.vStr "Ana"), ("identification_number", PyVal.vNone),
   ("phone_number", PyVal.vNone), ("total_appointments", PyVal.vInt 0),
   ("cancelled_appointments", PyVal.vInt 0),
   ("last_appointment_date", PyVal.vNone),
   ("last_appointment_service", PyVal.vNone),
   ("preferred_services", PyVal.vList ["A", "B", "C", "D", "E"]),
   ("preferred_employees", PyVal.vList []),
   ("preferred_time_slots", PyVal.vList []),
   ("preferred_branch", PyVal.vNone), ("notes", PyVal.vList []),
   ("first_interaction", PyVal.vNone), ("last_interaction", PyVal.vNone)]

/-- C8 counterexample: merging an extraction update into a profile whose
`preferred_services` already holds the 5 most recent entries (the configured
maximum of the appointment-driven update) yields 6 entries — `update_profile`
applies no cap — and a scalar field is overwritten even by the empty
string. -/
theorem C8_counterexample :
    dictGet (update_profile demoProfile
        [("preferred_services", PyVal.vList ["F"])] "t1")
        "preferred_services" =
      some (PyVal.vList ["A", "B", "C", "D", "E", "F"]) ∧
    dictGet (update_profile demoProfile [("full_name", PyVal.vStr "")] "t1")
        "full_name" = some (PyVal.vStr "") := by
  constructor <;> decide

/-- C8 (amended): `update_profile` unions list fields without re-adding
items already present (in particular [A] merged with [B] holds both), but
applies no cap, and overwrites scalar fields unconditionally — empty values
included; an empty (malformed-JSON) update dict changes no profile field;
the last-5 / last-3 caps live only in `update_after_appointment`. -/
theorem C8_profile_merge :
    (∀ (data : PyDict) (k : String) (l v : List String) (now : String),
        k ≠ "last_interaction" → dictGet data k = some (PyVal.vList l) →
        dictGet (update_profile data [(k, PyVal.vList v)] now) k =
          some (PyVal.vList (l ++ v.filter fun item => ¬ l.contains item))) ∧
    (∀ (data : PyDict) (k : String) (old : PyVal) (s now : String),
        k ≠ "last_interaction" → dictGet data k = some old →
        (∀ l, old ≠ PyVal.vList l) →
        dictGet (update_profile data [(k, PyVal.vStr s)] now) k =
          some (PyVal.vStr s)) ∧
    (∀ (data : PyDict) (now k : String), k ≠ "last_interaction" →
        dictGet (update_profile data [] now) k = dictGet data k) ∧
    (∀ (data : PyDict) (l : List String)
        (service_name employee_name dd tt now : String) (res : PyDict),
        dictGet data "preferred_services" = some (PyVal.vList l) →
        l.contains service_name = false →
        update_after_appointment data service_name employee_name dd tt now =
          some res →
        dictGet res "preferred_services" =
            some (PyVal.vList (takeLast 5 (l ++ [service_name]))) ∧
          (takeLast 5 (l ++ [service_name])).length ≤ 5) := by
  refine ⟨?_, ?_, ?_, ?_⟩
  · intro data k l v now hk hget
    unfold update_profile
    simp only [List.foldl_cons, List.foldl_nil]
    rw [dictGet_dictSet_ne _ _ _ _ hk]
    unfold applyProfileUpdate
    simp only [hget]
    exact dictGet_dictSet_self _ _ _ (by simp [hget])
  · intro data k old s now hk hget hnl
    unfold update_profile
    simp only [List.foldl_cons, List.foldl_nil]
    rw [dictGet_dictSet_ne _ _ _ _ hk]
    unfold applyProfileUpdate
    simp only [hget]
    cases old with
    | vList l => exact absurd rfl (hnl l)
    | vNone => exact dictGet_dictSet_self _ _ _ (by simp [hget])
    | vStr s0 => exact dictGet_dictSet_self _ _ _ (by simp [hget])
    | vInt n => exact dictGet_dictSet_self _ _ _ (by simp [hget])
  · intro data now k hk
    unfold update_profile
    simp only [List.foldl_nil]
    exact dictGet_dictSet_ne _ _ _ _ hk
  · intro data l sn en dd tt now res hget hcontains hres
    unfold update_after_appointment at hres
    cases hsplit : digitsToNat? (tt.toList.takeWhile fun c => c ≠ ':') with
    | none =>
      rw [hsplit] at hres
      exact absurd hres (by simp)
    | some hour =>
      rw [hsplit] at hres
      simp only [Option.some.injEq] at hres
      subst hres
      refine ⟨?_, by simp only [takeLast, List.length_drop]; omega⟩
      have h3 : dictGet (dictSet (dictSet (dictSet data "total_appointments"
          (PyVal.vInt (dictGetInt data "total_appointments" + 1)))
          "last_appointment_date" (PyVal.vStr dd))
          "last_appointment_service" (PyVal.vStr sn))
          "preferred_services" = some (PyVal.vList l) := by
        rw [dictGet_dictSet_ne _ _ _ _ (by decide),
          dictGet_dictSet_ne _ _ _ _ (by decide),
          dictGet_dictSet_ne _ _ _ _ (by decide)]
        exact hget
      have hserv : dictGetList (dictSet (dictSet (dictSet data
          "total_appointments"
          (PyVal.vInt (dictGetInt data "total_appointments" + 1)))
          "last_appointment_date" (PyVal.vStr dd))
          "last_appointment_service" (PyVal.vStr sn))
          "preferred_services" = l := by
        unfold dictGetList
        rw [h3]
      rw [hserv, hcontains]
      simp only [Bool.false_eq_true, if_false]
      set d4 := dictSet (dictSet (dictSet (dictSet data "total_appointments"
          (PyVal.vInt (dictGetInt data "total_appointments" + 1)))
          "last_appointment_date" (PyVal.vStr dd))
          "last_appointment_service" (PyVal.vStr sn))
          "preferred_services" (PyVal.vList (takeLast 5 (l ++ [sn]))) with hd4
      have h4 : dictGet d4 "preferred_services" =
          some (PyVal.vList (takeLast 5 (l ++ [sn]))) := by
        rw [hd4]
        exact dictGet_dictSet_self _ _ _ (by simp [h3])
      set d5 := if (dictGetList d4 "preferred_employees").contains en = true
        then d4
        else dictSet d4 "preferred_employees"
          (PyVal.vList (takeLast 3 (dictGetList d4 "preferred_employees" ++
            [en]))) with hd5
      have h5 : dictGet d5 "preferred_services" =
          some (PyVal.vList (takeLast 5 (l ++ [sn]))) := by
        rw [hd5]
        split
        · exact h4
        · rw [dictGet_dictSet_ne _ _ _ _ (by decide)]
          exact h4
      rw [dictGet_dictSet_ne _ _ _ _ (by decide)]
      split
      all_goals
        split
        · exact h5
        · rw [dictGet_dictSet_ne _ _ _ _ (by decide)]
          exact h5

/-- C8 witness: on the demo profile — [A] merged with [B] keeps both, the
empty string overwrites the stored name, an empty update dict leaves
`full_name` alone, and the appointment-driven update caps the services list
at the 5 most recent. -/
theorem C8_profile_merge_witness :
    dictGet (update_profile
        (dictSet demoProfile "preferred_services" (PyVal.vList ["A"]))
        [("preferred_services", PyVal.vList ["B"])] "t2")
        "preferred_services" = some (PyVal.vList ["A", "B"]) ∧
    dictGet (update_profile demoProfile [("full_name", PyVal.vStr "")] "t2")
        "full_name" = some (PyVal.vStr "") ∧
    dictGet (update_profile demoProfile [] "t2") "full_name" =
      dictGet demoProfile "full_name" ∧
    ∃ res, update_after_appointment demoProfile "F" "Emp" "2026-10-20"
        "10:00" "t2" = some res ∧
      dictGet res "preferred_services" =
        some (PyVal.vList (takeLast 5 (["A", "B", "C", "D", "E"] ++ ["F"]))) := by
  refine ⟨?_, ?_, ?_, ?_⟩
  · have h := C8_profile_merge.1
      (dictSet demoProfile "preferred_services" (PyVal.vList ["A"]))
      "preferred_services" ["A"] ["B"] "t2" (by decide) (by decide)
    rw [h]
    decide
  · exact C8_profile_merge.2.1 demoProfile "full_name" (PyVal.vStr "Ana") ""
      "t2" (by decide) (by decide) (by intro l h; cases h)
  · exact C8_profile_merge.2.2.1 demoProfile "t2" "full_name" (by decide)
  · have hsome : (update_after_appointment demoProfile "F" "Emp"
        "2026-10-20" "10:00" "t2").isSome = true := by decide
    obtain ⟨res, hres⟩ := Option.isSome_iff_exists.mp hsome
    exact ⟨res, hres, (C8_profile_merge.2.2.2 demoProfile
      ["A", "B", "C", "D", "E"] "F" "Emp" "2026-10-20" "10:00" "t2" res
      (by decide) (by decide) hres).1⟩

/-- A per-id row update (a map that fixes rows of other ids and preserves
ids) is invisible to lookups of other ids and composes with the lookup of
the updated id. -/
theorem find?_update_rows (l : List AppointmentRow) (aid : String)
    (g : AppointmentRow → AppointmentRow)
    (hg_skip : ∀ a, ¬(a.id = aid) → g a = a)
    (hg_id : ∀ a, (g a).id = a.id) (aid' : String) :
    (l.map g).find? (fun a => a.id = aid') =
      if aid' = aid then (l.find? fun a => a.id = aid').map g
      else l.find? fun a => a.id = aid' := by
  induction l with
  | nil => split <;> rfl
  | cons a t ih =>
    by_cases ha' : a.id = aid'
    · rw [List.map_cons,
        List.find?_cons_of_pos _ (by simp [hg_id, ha'])]
      by_cases h' : aid' = aid
      · rw [if_pos h', List.find?_cons_of_pos _ (by simp [ha'])]
        rfl
      · rw [if_neg h', List.find?_cons_of_pos _ (by simp [ha']),
          hg_skip a (fun hc => h' (ha'.symm.trans hc))]
    · rw [List.map_cons, List.find?_cons_of_neg _ (by simp [hg_id, ha']),
        List.find?_cons_of_neg _ (by simp [ha'])]
      rw [ih]

/-- C9: cancelling an already-cancelled appointment is a friendly no-op —
descriptive result, untouched store, no external call; cancelling a
non-cancelled appointment attempts at most one best-effort external delete
and updates exactly the cancellation fields of that row (reason, actor
`"user"`, timestamps), leaving every lookup of another id unchanged. -/
theorem C9_cancel_idempotent (db : Db) (env : CalendarEnv) (now : Instant)
    (appointment_id reason : String) (apt : AppointmentRow)
    (hapt : db.get_appointment appointment_id = some apt) :
    (apt.status = "cancelled" →
      cancel_appointment db env now appointment_id reason =
        (CancelResult.alreadyCancelled, db, [])) ∧
    (apt.status ≠ "cancelled" →
      (cancel_appointment db env now appointment_id reason).1 =
          CancelResult.ok apt.service_name_snapshot apt.appointment_date
            apt.start_time reason ∧
        (cancel_appointment db env now appointment_id
              reason).2.1.get_appointment appointment_id =
          some { apt with
            status := "cancelled"
            cancellation_reason := some reason
            cancelled_at := some now
            cancelled_by := some "user"
            updated_at := now } ∧
        (∀ aid', aid' ≠ appointment_id →
          (cancel_appointment db env now appointment_id
            reason).2.1.get_appointment aid' = db.get_appointment aid') ∧
        ((∃ gcal eid,
            (cancel_appointment db env now appointment_id reason).2.2 =
              [ExtCall.deleteEvent gcal eid]) ∨
          (cancel_appointment db env now appointment_id reason).2.2 = [])) := by
  have hfind : db.appointments.find? (fun a => a.id = appointment_id) =
      some apt := hapt
  have hid : apt.id = appointment_id := by
    have := List.find?_some hfind
    simpa using this
  constructor
  · intro hst
    simp only [cancel_appointment, hapt]
    rw [if_pos hst]
  · intro hst
    have hred : cancel_appointment db env now appointment_id reason =
        (CancelResult.ok apt.service_name_snapshot apt.appointment_date
          apt.start_time reason,
         db.cancel_appointment appointment_id reason "user" now,
         match apt.google_event_id with
         | some event_id =>
           if event_id ≠ "" ∧ env.clientOk then
             match db.get_calendar apt.calendar_id with
             | some calendar =>
               [ExtCall.deleteEvent calendar.google_calendar_id event_id]
             | none => []
           else []
         | none => []) := by
      simp only [cancel_appointment, hapt]
      rw [if_neg hst]
    have hrw := find?_update_rows db.appointments appointment_id
      (fun a =>
        if a.id = appointment_id then
          { a with
            status := "cancelled"
            cancellation_reason := some reason
            cancelled_at := some now
            cancelled_by := some "user"
            updated_at := now }
        else a)
      (fun a ha => if_neg ha)
      (fun a => by by_cases h : a.id = appointment_id <;> simp [h])
    refine ⟨by rw [hred], ?_, ?_, ?_⟩
    · rw [hred]
      show ((db.cancel_appointment appointment_id reason "user"
        now).appointments.find? fun a => a.id = appointment_id) = _
      unfold Db.cancel_appointment
      rw [hrw appointment_id, if_pos rfl, hfind]
      dsimp only [Option.map]
      rw [if_pos hid]
    · intro aid' hne
      rw [hred]
      show ((db.cancel_appointment appointment_id reason "user"
        now).appointments.find? fun a => a.id = aid') = _
      unfold Db.cancel_appointment
      rw [hrw aid', if_neg hne]
      rfl
    · rw [hred]
      cases hg : apt.google_event_id with
      | none => exact Or.inr rfl
      | some eid =>
        by_cases hc : eid ≠ "" ∧ env.clientOk
        · cases hcal : db.get_calendar apt.calendar_id with
          | none =>
            right
            simp [hc, hcal]
          | some calendar =>
            left
            exact ⟨calendar.google_calendar_id, eid, by simp [hc, hcal]⟩
        · right
          simp [hc]

/-- C9 witness: on the demo store, re-cancelling the cancelled appointment
is a no-op triple, and cancelling the scheduled one marks exactly its
cancellation fields. -/
theorem C9_cancel_idempotent_witness :
    cancel_appointment demoDb demoEnv 9 "apt-9" "again" =
        (CancelResult.alreadyCancelled, demoDb, []) ∧
      (cancel_appointment demoDb demoEnv 9 "apt-1"
            "conflict").2.1.get_appointment "apt-1" =
        some { demoAppointment with
          status := "cancelled"
          cancellation_reason := some "conflict"
          cancelled_at := some 9
          cancelled_by := some "user"
          updated_at := 9 } := by
  constructor
  · exact (C9_cancel_idempotent demoDb demoEnv 9 "apt-9" "again"
      demoAppointmentCancelled (by decide)).1 (by decide)
  · exact ((C9_cancel_idempotent demoDb demoEnv 9 "apt-1" "conflict"
      demoAppointment (by decide)).2 (by decide)).2.1

/-- C10 counterexample: a scheduled appointment carrying a truthy stored
event id, with the client obtainable and the external recreate completing
(returning its `(event_id, meet_link)` tuple — `(None, None)` on
`HttpError`), is accepted for an available 09:00 slot, yet the UPDATE
raises on the tuple bind and the stored record is left unmodified — the
claimed in-place update does not occur. -/
theorem C10_counterexample :
    demoAppointment3.status = "scheduled" ∧
      (⟨9, 0⟩ : TimeOfDay) ∈ _get_available_slots_for_calendar demoDb
        demoEnv "cal-2" "" ⟨2026, 10, 23⟩
        demoAppointment3.service_duration_snapshot true ∧
      (reschedule_appointment demoDb demoEnv (some (none, none)) 12 "apt-4"
          (some ⟨2026, 10, 23⟩) (some ⟨9, 0⟩)).1 =
        RescheduleResult.raisedEventIdBind ∧
      (reschedule_appointment demoDb demoEnv (some (none, none)) 12 "apt-4"
          (some ⟨2026, 10, 23⟩) (some ⟨9, 0⟩)).2.1 = demoDb := by
  decide

/-- C10 (amended): rescheduling requires status exactly `"scheduled"` (any
other status returns a descriptive rejection with the store untouched); a
rejected time also leaves the store untouched; an accepted time updates in
place only the date, start, end, external-event id (set to NULL) and
`updated_at` of that row — status and all snapshot fields are carried
over — provided the best-effort external-event step left `new_event_id`
at `None`; when that step completed with its tuple return (truthy old
event id, obtainable client, call returned), the UPDATE raises on the bind
and the record is left unmodified. Lookups of other ids are unchanged in
every case. -/
theorem C10_reschedule_frame (db : Db) (env : CalendarEnv)
    (createReturns : Option (Option String × Option String)) (now : Instant)
    (appointment_id : String) (new_date : PyDate) (new_time : TimeOfDay)
    (apt : AppointmentRow)
    (hapt : db.get_appointment appointment_id = some apt) :
    (apt.status ≠ "scheduled" →
      reschedule_appointment db env createReturns now appointment_id
          (some new_date) (some new_time) =
        (RescheduleResult.notActive, db, [])) ∧
    (apt.status = "scheduled" →
      ∀ cal, db.get_calendar apt.calendar_id = some cal →
        (new_time ∉ _get_available_slots_for_calendar db env cal.id
            cal.google_calendar_id new_date apt.service_duration_snapshot
            true →
          (reschedule_appointment db env createReturns now appointment_id
            (some new_date) (some new_time)).2.1 = db) ∧
        (new_time ∈ _get_available_slots_for_calendar db env cal.id
            cal.google_calendar_id new_date apt.service_duration_snapshot
            true →
          (¬(optStrTruthy apt.google_event_id = true ∧ env.clientOk = true ∧
              createReturns.isSome = true) →
            (reschedule_appointment db env createReturns now appointment_id
                (some new_date) (some new_time)).2.1.get_appointment
                appointment_id =
              some { apt with
                appointment_date := new_date
                start_time := new_time
                end_time := timeOfMins ((new_time.toMins +
                  apt.service_duration_snapshot) % 1440)
                google_event_id := none
                updated_at := now } ∧
            ∀ aid', aid' ≠ appointment_id →
              (reschedule_appointment db env createReturns now appointment_id
                (some new_date) (some new_time)).2.1.get_appointment aid' =
                db.get_appointment aid') ∧
          ((optStrTruthy apt.google_event_id = true ∧ env.clientOk = true ∧
              createReturns.isSome = true) →
            (reschedule_appointment db env createReturns now appointment_id
                (some new_date) (some new_time)).1 =
              RescheduleResult.raisedEventIdBind ∧
            (reschedule_appointment db env createReturns now appointment_id
              (some new_date) (some new_time)).2.1 = db))) := by
  have hfind : db.appointments.find? (fun a => a.id = appointment_id) =
      some apt := hapt
  have hid : apt.id = appointment_id := by
    have := List.find?_some hfind
    simpa using this
  constructor
  · intro hst
    simp only [reschedule_appointment, hapt]
    rw [if_pos hst]
  · intro hst cal hcal
    have hne_ne : ¬(apt.status ≠ "scheduled") := by simp [hst]
    constructor
    · intro hmem
      simp only [reschedule_appointment, hapt, hcal]
      rw [if_neg hne_ne, if_neg hmem]
      split <;> rfl
    · intro hmem
      constructor
      · intro hnt
        have hdb : (reschedule_appointment db env createReturns now
            appointment_id (some new_date) (some new_time)).2.1 =
            { db with
              appointments := db.appointments.map fun a =>
                if a.id = appointment_id then
                  { a with
                    appointment_date := new_date
                    start_time := new_time
                    end_time := timeOfMins ((new_time.toMins +
                      apt.service_duration_snapshot) % 1440)
                    google_event_id := none
                    updated_at := now }
                else a } := by
          simp only [reschedule_appointment, hapt, hcal]
          rw [if_neg hne_ne, if_pos hmem]
          by_cases hot : optStrTruthy apt.google_event_id
          · by_cases hck : env.clientOk
            · cases hcr : createReturns with
              | none => simp [hot, hck, hcr]
              | some p =>
                exact absurd ⟨hot, hck, by simp [hcr]⟩ hnt
            · simp [hot, hck]
          · simp [hot]
        have hrw := find?_update_rows db.appointments appointment_id
          (fun a =>
            if a.id = appointment_id then
              { a with
                appointment_date := new_date
                start_time := new_time
                end_time := timeOfMins ((new_time.toMins +
                  apt.service_duration_snapshot) % 1440)
                google_event_id := none
                updated_at := now }
            else a)
          (fun a ha => if_neg ha)
          (fun a => by by_cases h : a.id = appointment_id <;> simp [h])
        refine ⟨?_, ?_⟩
        · rw [hdb]
          unfold Db.get_appointment
          dsimp only
          rw [hrw appointment_id, if_pos rfl, hfind]
          dsimp only [Option.map]
          rw [if_pos hid]
        · intro aid' hne
          rw [hdb]
          unfold Db.get_appointment
          dsimp only
          rw [hrw aid', if_neg hne]
      · rintro ⟨hot, hck, hsome⟩
        obtain ⟨p, hp⟩ := Option.isSome_iff_exists.mp hsome
        obtain ⟨e, m⟩ := p
        constructor <;>
          · simp only [reschedule_appointment, hapt, hcal]
            rw [if_neg hne_ne, if_pos hmem]
            simp [hot, hck, hp]

/-- C10 witness: on the demo store, rescheduling the cancelled appointment
is rejected with the store untouched; rescheduling the scheduled
appointment with no stored event id to an available 09:00 updates exactly
date/start/end/event-id/updated-at of that row; and the amended tuple
branch re-derives the counterexample outcome through the theorem. -/
theorem C10_reschedule_frame_witness :
    reschedule_appointment demoDb demoEnv none 11 "apt-9"
        (some ⟨2026, 10, 22⟩) (some ⟨9, 0⟩) =
      (RescheduleResult.notActive, demoDb, []) ∧
    (reschedule_appointment demoDb demoEnv none 11 "apt-3"
          (some ⟨2026, 10, 22⟩) (some ⟨9, 0⟩)).2.1.get_appointment "apt-3" =
      some { demoAppointment2 with
        appointment_date := ⟨2026, 10, 22⟩
        start_time := ⟨9, 0⟩
        end_time :=
          timeOfMins (((⟨9, 0⟩ : TimeOfDay).toMins +
            demoAppointment2.service_duration_snapshot) % 1440)
        google_event_id := none
        updated_at := 11 } ∧
    (reschedule_appointment demoDb demoEnv (some (none, none)) 12 "apt-4"
        (some ⟨2026, 10, 23⟩) (some ⟨9, 0⟩)).2.1 = demoDb := by
  refine ⟨?_, ?_, ?_⟩
  · exact (C10_reschedule_frame demoDb demoEnv none 11 "apt-9" ⟨2026, 10, 22⟩
      ⟨9, 0⟩ demoAppointmentCancelled (by decide)).1 (by decide)
  · exact (((((C10_reschedule_frame demoDb demoEnv none 11 "apt-3"
      ⟨2026, 10, 22⟩ ⟨9, 0⟩ demoAppointment2 (by decide)).2 (by decide))
      demoCalendar2 (by decide)).2 (by decide)).1 (by decide)).1
  · exact (((((C10_reschedule_frame demoDb demoEnv (some (none, none)) 12
      "apt-4" ⟨2026, 10, 23⟩ ⟨9, 0⟩ demoAppointment3 (by decide)).2
      (by decide)) demoCalendar2 (by decide)).2 (by decide)).2
      (by decide)).2

/-- C3 counterexample: on the marker block [09:00, 17:00) with no bookings
and duration 40, `calculate_available_slots` does not contain 16:00 at all —
the last generated slot is 16:20 — so the claimed slot list
09:00, 09:40, …, 16:00 is not the computed one. -/
theorem C3_counterexample :
    (⟨16, 0⟩ : TimeOfDay) ∉
        calculate_available_slots [(⟨9, 0⟩, ⟨17, 0⟩)] [] 40 ∧
      (calculate_available_slots [(⟨9, 0⟩, ⟨17, 0⟩)] [] 40).getLast? =
        some ⟨16, 20⟩ := by
  decide

/-- C3 (amended): marker block [09:00, 17:00), no bookings, duration 40 →
exactly 12 pairwise non-overlapping start times 09:00, 09:40, 10:20, …,
16:20, each 40 minutes after the previous one. -/
theorem C3_slot_determinism :
    calculate_available_slots [(⟨9, 0⟩, ⟨17, 0⟩)] [] 40 =
        [⟨9, 0⟩, ⟨9, 40⟩, ⟨10, 20⟩, ⟨11, 0⟩, ⟨11, 40⟩, ⟨12, 20⟩,
         ⟨13, 0⟩, ⟨13, 40⟩, ⟨14, 20⟩, ⟨15, 0⟩, ⟨15, 40⟩, ⟨16, 20⟩] ∧
      (calculate_available_slots [(⟨9, 0⟩, ⟨17, 0⟩)] [] 40).length = 12 ∧
      (calculate_available_slots [(⟨9, 0⟩, ⟨17, 0⟩)] [] 40).Pairwise
        (fun a b => a.toMins + 40 ≤ b.toMins) := by
  refine ⟨by decide, by decide, ?_⟩
  have h : calculate_available_slots [(⟨9, 0⟩, ⟨17, 0⟩)] [] 40 =
      [⟨9, 0⟩, ⟨9, 40⟩, ⟨10, 20⟩, ⟨11, 0⟩, ⟨11, 40⟩, ⟨12, 20⟩,
       ⟨13, 0⟩, ⟨13, 40⟩, ⟨14, 20⟩, ⟨15, 0⟩, ⟨15, 40⟩, ⟨16, 20⟩] := by decide
  rw [h]
  decide
